import Mathlib

set_option maxRecDepth 100000

/-!
Verification development for the two tutorial notebooks of the repository
(the Atomap sublattice-analysis notebook and the abTEM/ASE atomic-models
notebook).  The notebooks are shallowly embedded: every code cell is
transcribed into a small Python-statement AST, and the few cells that carry
actual computation (the live-FFT helper, the ABF contrast inversion, the
SrTiO3/LaTiO3 interface construction, the save/load and write/read round
trips) additionally get executable semantic models.
-/

namespace Notebooks

/-- Shallow embedding of the Python expressions occurring in the notebooks.
Keyword arguments are represented by the kw constructor appearing in an
argument list.  The sliceAll constructor stands for the full slice, as in
positions[:, 1]. -/
inductive PyExpr where
  | name    (x : String)
  | intLit  (n : Int)
  | ratLit  (q : ℚ)
  | strLit  (s : String)
  | boolLit (b : Bool)
  | attr    (e : PyExpr) (f : String)
  | call    (fn : PyExpr) (args : List PyExpr)
  | kw      (k : String) (v : PyExpr)
  | index   (e : PyExpr) (i : PyExpr)
  | binop   (op : String) (a b : PyExpr)
  | unop    (op : String) (a : PyExpr)
  | tupleE  (es : List PyExpr)
  | listE   (es : List PyExpr)
  | sliceAll

/-- Shallow embedding of the Python statements occurring in the notebooks.
The AST deliberately also has constructors for constructs the notebooks never
use (try/except, raise, loops, conditionals, thread/async spawning), so that
their absence is a checkable property of the transcription rather than an
artifact of the embedding. -/
inductive PyStmt where
  | imp        (module : String) (asName : Option String)
  | impFrom    (module : String) (names : List String)
  | assign     (targets : List PyExpr) (rhs : PyExpr)
  | augAssign  (target : PyExpr) (op : String) (rhs : PyExpr)
  | exprS      (e : PyExpr)
  | defFun     (nm : String) (params : List String) (body : List PyStmt)
  | ret        (e : PyExpr)
  | magic      (s : String)
  | tryEx      (body : List PyStmt) (handler : List PyStmt)
  | raiseS     (e : PyExpr)
  | whileS     (cond : PyExpr) (body : List PyStmt)
  | forS       (v : String) (iter : PyExpr) (body : List PyStmt)
  | ifS        (cond : PyExpr) (thn : List PyStmt) (els : List PyStmt)
  | asyncSpawn (e : PyExpr)

namespace Analysis

open PyExpr PyStmt

mutual

/-- All function definitions occurring in a statement (recursively). -/
def stmtFunDefs : PyStmt → List (String × List String × List PyStmt)
  | .defFun n ps b => (n, ps, b) :: stmtsFunDefs b
  | .tryEx b h => stmtsFunDefs b ++ stmtsFunDefs h
  | .whileS _ b => stmtsFunDefs b
  | .forS _ _ b => stmtsFunDefs b
  | .ifS _ t e => stmtsFunDefs t ++ stmtsFunDefs e
  | _ => []

def stmtsFunDefs : List PyStmt → List (String × List String × List PyStmt)
  | [] => []
  | s :: rest => stmtFunDefs s ++ stmtsFunDefs rest

end

/-- Names of the functions defined in a list of statements. -/
def funDefNames (stmts : List PyStmt) : List String :=
  (stmtsFunDefs stmts).map (fun t => t.1)

mutual

/-- Does a statement contain a try/except handler anywhere? -/
def stmtHasTry : PyStmt → Bool
  | .tryEx _ _ => true
  | .defFun _ _ b => stmtsHaveTry b
  | .whileS _ b => stmtsHaveTry b
  | .forS _ _ b => stmtsHaveTry b
  | .ifS _ t e => stmtsHaveTry t || stmtsHaveTry e
  | _ => false

def stmtsHaveTry : List PyStmt → Bool
  | [] => false
  | s :: rest => stmtHasTry s || stmtsHaveTry rest

end

mutual

/-- Does a statement contain a loop (the only retry mechanism expressible in
the AST) anywhere? -/
def stmtHasLoop : PyStmt → Bool
  | .whileS _ _ => true
  | .forS _ _ _ => true
  | .defFun _ _ b => stmtsHaveLoop b
  | .tryEx b h => stmtsHaveLoop b || stmtsHaveLoop h
  | .ifS _ t e => stmtsHaveLoop t || stmtsHaveLoop e
  | _ => false

def stmtsHaveLoop : List PyStmt → Bool
  | [] => false
  | s :: rest => stmtHasLoop s || stmtsHaveLoop rest

end

mutual

/-- Does a statement contain a raise statement anywhere? -/
def stmtHasRaise : PyStmt → Bool
  | .raiseS _ => true
  | .defFun _ _ b => stmtsHaveRaise b
  | .tryEx b h => stmtsHaveRaise b || stmtsHaveRaise h
  | .whileS _ b => stmtsHaveRaise b
  | .forS _ _ b => stmtsHaveRaise b
  | .ifS _ t e => stmtsHaveRaise t || stmtsHaveRaise e
  | _ => false

def stmtsHaveRaise : List PyStmt → Bool
  | [] => false
  | s :: rest => stmtHasRaise s || stmtsHaveRaise rest

end

mutual

/-- Does a statement contain an async/thread spawning construct anywhere? -/
def stmtHasSpawn : PyStmt → Bool
  | .asyncSpawn _ => true
  | .defFun _ _ b => stmtsHaveSpawn b
  | .tryEx b h => stmtsHaveSpawn b || stmtsHaveSpawn h
  | .whileS _ b => stmtsHaveSpawn b
  | .forS _ _ b => stmtsHaveSpawn b
  | .ifS _ t e => stmtsHaveSpawn t || stmtsHaveSpawn e
  | _ => false

def stmtsHaveSpawn : List PyStmt → Bool
  | [] => false
  | s :: rest => stmtHasSpawn s || stmtsHaveSpawn rest

end

mutual

/-- Modules imported by a statement (recursively). -/
def stmtImports : PyStmt → List String
  | .imp m _ => [m]
  | .impFrom m _ => [m]
  | .defFun _ _ b => stmtsImports b
  | .tryEx b h => stmtsImports b ++ stmtsImports h
  | .whileS _ b => stmtsImports b
  | .forS _ _ b => stmtsImports b
  | .ifS _ t e => stmtsImports t ++ stmtsImports e
  | _ => []

def stmtsImports : List PyStmt → List String
  | [] => []
  | s :: rest => stmtImports s ++ stmtsImports rest

end

mutual

/-- Does an expression use the given identifier? -/
def exprUsesName (x : String) : PyExpr → Bool
  | .name y => y = x
  | .attr e _ => exprUsesName x e
  | .call f as => exprUsesName x f || exprsUseName x as
  | .kw _ v => exprUsesName x v
  | .index e i => exprUsesName x e || exprUsesName x i
  | .binop _ a b => exprUsesName x a || exprUsesName x b
  | .unop _ a => exprUsesName x a
  | .tupleE es => exprsUseName x es
  | .listE es => exprsUseName x es
  | _ => false

def exprsUseName (x : String) : List PyExpr → Bool
  | [] => false
  | e :: rest => exprUsesName x e || exprsUseName x rest

end

mutual

/-- Does a statement use the given identifier in any of its expressions? -/
def stmtUsesName (x : String) : PyStmt → Bool
  | .assign ts r => exprsUseName x ts || exprUsesName x r
  | .augAssign t _ r => exprUsesName x t || exprUsesName x r
  | .exprS e => exprUsesName x e
  | .ret e => exprUsesName x e
  | .defFun _ _ b => stmtsUseName x b
  | .tryEx b h => stmtsUseName x b || stmtsUseName x h
  | .raiseS e => exprUsesName x e
  | .whileS c b => exprUsesName x c || stmtsUseName x b
  | .forS _ i b => exprUsesName x i || stmtsUseName x b
  | .ifS c t e => exprUsesName x c || stmtsUseName x t || stmtsUseName x e
  | _ => false

def stmtsUseName (x : String) : List PyStmt → Bool
  | [] => false
  | s :: rest => stmtUsesName x s || stmtsUseName x rest

end

mutual

/-- Does an expression mention an attribute access with the given field name? -/
def exprMentionsAttr (m : String) : PyExpr → Bool
  | .attr e f => f = m || exprMentionsAttr m e
  | .call f as => exprMentionsAttr m f || exprsMentionAttr m as
  | .kw _ v => exprMentionsAttr m v
  | .index e i => exprMentionsAttr m e || exprMentionsAttr m i
  | .binop _ a b => exprMentionsAttr m a || exprMentionsAttr m b
  | .unop _ a => exprMentionsAttr m a
  | .tupleE es => exprsMentionAttr m es
  | .listE es => exprsMentionAttr m es
  | _ => false

def exprsMentionAttr (m : String) : List PyExpr → Bool
  | [] => false
  | e :: rest => exprMentionsAttr m e || exprsMentionAttr m rest

end

mutual

/-- Does a statement mention an attribute access with the given field name? -/
def stmtMentionsAttr (m : String) : PyStmt → Bool
  | .assign ts r => exprsMentionAttr m ts || exprMentionsAttr m r
  | .augAssign t _ r => exprMentionsAttr m t || exprMentionsAttr m r
  | .exprS e => exprMentionsAttr m e
  | .ret e => exprMentionsAttr m e
  | .defFun _ _ b => stmtsMentionAttr m b
  | .tryEx b h => stmtsMentionAttr m b || stmtsMentionAttr m h
  | .raiseS e => exprMentionsAttr m e
  | .whileS c b => exprMentionsAttr m c || stmtsMentionAttr m b
  | .forS _ i b => exprMentionsAttr m i || stmtsMentionAttr m b
  | .ifS c t e =>
      exprMentionsAttr m c || stmtsMentionAttr m t || stmtsMentionAttr m e
  | _ => false

def stmtsMentionAttr (m : String) : List PyStmt → Bool
  | [] => false
  | s :: rest => stmtMentionsAttr m s || stmtsMentionAttr m rest

end

/-- Is the expression a single call whose callee is an attribute with the
given method name? -/
def isCallOfMethod (m : String) : PyExpr → Bool
  | .call (.attr _ f) _ => f = m
  | _ => false

/-- Is the statement exactly one call of the given method, either as a bare
call statement or as the entire right-hand side of an assignment? -/
def stmtIsSingleCallOfMethod (m : String) : PyStmt → Bool
  | .exprS e => isCallOfMethod m e
  | .assign _ e => isCallOfMethod m e
  | _ => false

/-- Is the statement a function definition? -/
def stmtIsDefFun : PyStmt → Bool
  | .defFun _ _ _ => true
  | _ => false

/-- Is the expression a single call of a function attribute of the given
library module, as in abtem.orthogonalize_cell(...)? -/
def isCallOfLibFn (lib fn : String) : PyExpr → Bool
  | .call (.attr (.name l) f) _ => l = lib && f = fn
  | _ => false

/-- Is the statement exactly one call of the given library function, either
bare or as the entire right-hand side of an assignment? -/
def stmtCallsLibFn (lib fn : String) : PyStmt → Bool
  | .exprS e => isCallOfLibFn lib fn e
  | .assign _ e => isCallOfLibFn lib fn e
  | _ => false

/-- A short label for a statement: the callee of its top-level call, when the
statement is a call on a named object. -/
def stmtLabel : PyStmt → String
  | .exprS (.call (.attr (.name x) m) _) => x ++ "." ++ m
  | .exprS (.call (.name f) _) => f
  | .assign _ (.call (.attr (.name x) m) _) => x ++ "." ++ m
  | .assign _ (.call (.name f) _) => f
  | _ => ""

/-- Straight-line statement forms: everything the notebooks actually use at
the top level except function definitions.  No loops, conditionals,
try/except, raise or spawning. -/
def stmtIsStraightLine : PyStmt → Bool
  | .imp _ _ => true
  | .impFrom _ _ => true
  | .assign _ _ => true
  | .augAssign _ _ _ => true
  | .exprS _ => true
  | .ret _ => true
  | .magic _ => true
  | _ => false

/-- Statement forms a helper body may use so that it only sequences
external-library calls: an assignment of a call result to a name, a bare
call statement, or a return of a bound name. -/
def isLibCallStmt : PyStmt → Bool
  | .exprS (.call _ _) => true
  | .assign [.name _] (.call _ _) => true
  | .ret (.name _) => true
  | _ => false

end Analysis

/-- Body of the one function the Atomap notebook defines, transcribed
statement by statement from the get_live_fft cell. -/
def getLiveFftBody : List PyStmt :=
  [ .assign [.name "roi"] (.call (.attr (.attr (.name "hs") "roi") "RectangularROI") []),
    .exprS (.call (.attr (.name "s") "plot") []),
    .assign [.name "s_roi"] (.call (.attr (.name "roi") "interactive") [.name "s"]),
    .assign [.name "s_fft"]
      (.call (.attr (.name "hs") "interactive")
        [.attr (.name "s_roi") "fft", .kw "shift" (.boolLit true)]),
    .exprS (.call (.attr (.name "s_fft") "plot") [.kw "power_spectrum" (.boolLit true)]),
    .ret (.name "s_fft") ]

/-- The code cells of the Atomap tutorial notebook, in listed order, each
cell a list of statements. -/
def atomapCells : List (List PyStmt) :=
  [ [.magic "%matplotlib widget"],
    [.imp "hyperspy.api" (some "hs")],
    [.imp "atomap.api" (some "am")],
    [.assign [.name "s"] (.call (.attr (.name "hs") "load") [.strLit "ADF_image.hspy"])],
    [.exprS (.call (.attr (.name "s") "plot") [])],
    [.assign [.name "s_abf"] (.call (.attr (.name "hs") "load") [.strLit "ABF_image.hspy"])],
    [.exprS (.call (.attr (.name "s_abf") "plot") [])],
    [.defFun "get_live_fft" ["s"] getLiveFftBody],
    [.exprS (.call (.name "get_live_fft") [.name "s"])],
    [.assign [.name "s_peaks"]
      (.call (.attr (.name "am") "get_feature_separation")
        [.name "s", .kw "pca" (.boolLit true)])],
    [.exprS (.call (.attr (.name "s_peaks") "plot") [])],
    [.assign [.name "atom_positions"]
      (.call (.attr (.name "am") "get_atom_positions")
        [.name "s", .kw "separation" (.intLit 12), .kw "pca" (.boolLit true)])],
    [.assign [.name "sublattice_A"]
      (.call (.attr (.name "am") "Sublattice")
        [.kw "atom_position_list" (.name "atom_positions"), .kw "image" (.name "s")])],
    [.exprS (.call (.attr (.name "sublattice_A") "plot") [])],
    [.exprS (.call (.attr (.name "sublattice_A") "find_nearest_neighbors") [])],
    [.exprS (.call (.attr (.name "sublattice_A") "refine_atom_positions_using_center_of_mass") [])],
    [.exprS (.call (.attr (.name "sublattice_A") "refine_atom_positions_using_2d_gaussian") [])],
    [.exprS (.call (.attr (.name "sublattice_A") "plot") [])],
    [.exprS (.call (.attr (.name "sublattice_A") "construct_zone_axes") [])],
    [.exprS (.call (.attr (.name "sublattice_A") "plot_planes") [])],
    [.assign [.name "monolayer_a"]
      (.call (.attr (.name "sublattice_A") "get_monolayer_distance_map") [])],
    [.exprS (.call (.attr (.name "monolayer_a") "plot") [])],
    [.assign [.name "zone_axis_111"]
      (.index (.attr (.name "sublattice_A") "zones_axis_average_distances") (.intLit 2))],
    [.assign [.name "interface_layer_111"]
      (.index (.index (.attr (.name "sublattice_A") "atom_planes_by_zone_vector")
        (.name "zone_axis_111")) (.intLit 34))],
    [.exprS (.name "interface_layer_111")],
    [.assign [.name "s_A_monolayer"]
      (.call (.attr (.name "sublattice_A") "get_monolayer_distance_line_profile")
        [.kw "zone_vector" (.name "zone_axis_111"),
         .kw "atom_plane" (.name "interface_layer_111")])],
    [.exprS (.call (.attr (.name "s_A_monolayer") "plot") [])],
    [.exprS (.attr (.attr (.name "s_A_monolayer") "metadata") "line_profile_data")],
    [.assign [.name "s_A_elli"] (.call (.attr (.name "sublattice_A") "get_ellipticity_map") [])],
    [.exprS (.call (.attr (.name "s_A_elli") "plot") [])],
    [.assign [.name "s_A_elli_line"]
      (.call (.attr (.name "sublattice_A") "get_ellipticity_line_profile")
        [.name "interface_layer_111"])],
    [.exprS (.call (.attr (.name "s_A_elli_line") "plot") [])],
    [.exprS (.call (.attr (.name "sublattice_A") "plot_ellipticity_vectors") [])],
    [.assign [.name "data_abf_invert"] (.binop "/" (.intLit 1) (.attr (.name "s_abf") "data"))],
    [.assign [.name "initial_position_A"] (.attr (.name "sublattice_A") "atom_positions")],
    [.assign [.name "sublattice_A2"]
      (.call (.attr (.name "am") "Sublattice")
        [.name "initial_position_A", .kw "image" (.name "data_abf_invert"),
         .kw "color" (.strLit "r"), .kw "name" (.strLit "A")])],
    [.exprS (.call (.attr (.name "sublattice_A2") "find_nearest_neighbors") []),
     .exprS (.call (.attr (.name "sublattice_A2") "refine_atom_positions_using_center_of_mass") []),
     .exprS (.call (.attr (.name "sublattice_A2") "refine_atom_positions_using_2d_gaussian") []),
     .exprS (.call (.attr (.name "sublattice_A2") "construct_zone_axes") [])],
    [.exprS (.call (.attr (.name "sublattice_A2") "plot") [])],
    [.impFrom "atomap.tools" ["remove_atoms_from_image_using_2d_gaussian"]],
    [.assign [.name "image_without_A2"]
      (.call (.name "remove_atoms_from_image_using_2d_gaussian")
        [.attr (.name "sublattice_A2") "image", .name "sublattice_A2"])],
    [.exprS (.call (.attr (.name "sublattice_A2") "plot_planes") [])],
    [.assign [.name "zone_axis_001"]
      (.index (.attr (.name "sublattice_A2") "zones_axis_average_distances") (.intLit 1)),
     .exprS (.name "zone_axis_001")],
    [.assign [.name "initial_positions_B"]
      (.call (.attr (.name "sublattice_A2") "find_missing_atoms_from_zone_vector")
        [.name "zone_axis_001"])],
    [.assign [.name "sublattice_B2"]
      (.call (.attr (.name "am") "Sublattice")
        [.name "initial_positions_B", .kw "image" (.name "image_without_A2"),
         .kw "color" (.strLit "b"), .kw "name" (.strLit "B")])],
    [.exprS (.call (.attr (.name "sublattice_B2") "plot") [])],
    [.exprS (.call (.attr (.name "sublattice_B2") "find_nearest_neighbors") []),
     .exprS (.call (.attr (.name "sublattice_B2") "refine_atom_positions_using_center_of_mass") []),
     .exprS (.call (.attr (.name "sublattice_B2") "refine_atom_positions_using_2d_gaussian") []),
     .exprS (.call (.attr (.name "sublattice_B2") "construct_zone_axes") [])],
    [.exprS (.call (.attr (.name "sublattice_B2") "plot") [])],
    [.exprS (.call (.attr (.name "sublattice_B2") "plot_planes") [])],
    [.assign [.name "zone_axis_002"]
      (.index (.attr (.name "sublattice_B2") "zones_axis_average_distances") (.intLit 0)),
     .assign [.name "O_positions"]
      (.call (.attr (.name "sublattice_B2") "find_missing_atoms_from_zone_vector")
        [.name "zone_axis_002"]),
     .assign [.name "image_without_AB"]
      (.call (.name "remove_atoms_from_image_using_2d_gaussian")
        [.attr (.name "sublattice_B2") "image", .name "sublattice_B2"]),
     .assign [.name "sublattice_O"]
      (.call (.attr (.name "am") "Sublattice")
        [.name "O_positions", .name "image_without_AB",
         .kw "color" (.strLit "g"), .kw "name" (.strLit "O")])],
    [.exprS (.call (.attr (.name "sublattice_O") "plot") [])],
    [.exprS (.call (.attr (.name "sublattice_O") "construct_zone_axes") []),
     .exprS (.call (.attr (.name "sublattice_O") "refine_atom_positions_using_center_of_mass") []),
     .exprS (.call (.attr (.name "sublattice_O") "refine_atom_positions_using_2d_gaussian") [])],
    [.exprS (.call (.attr (.name "sublattice_O") "plot") [])],
    [.assign [.name "atom_lattice"]
      (.call (.attr (.name "am") "Atom_Lattice")
        [.kw "image" (.attr (.name "s_abf") "data"), .kw "name" (.strLit "ABO3"),
         .kw "sublattice_list"
          (.listE [.name "sublattice_A2", .name "sublattice_B2", .name "sublattice_O"])])],
    [.exprS (.call (.attr (.name "atom_lattice") "plot") [])],
    [.exprS (.call (.attr (.name "atom_lattice") "save") [.kw "overwrite" (.boolLit true)])],
    [.assign [.name "atom_lattice2"]
      (.call (.attr (.name "am") "load_atom_lattice_from_hdf5")
        [.strLit "ABO3_atom_lattice.hdf5"])],
    [.assign [.name "sublattice_A"]
      (.index (.attr (.name "atom_lattice2") "sublattice_list") (.intLit 0))],
    [.assign [.name "sublattice_O"]
      (.index (.attr (.name "atom_lattice2") "sublattice_list") (.intLit 2))],
    [.assign [.name "s_o_atom_difference"]
      (.call (.attr (.name "sublattice_O") "get_atom_distance_difference_map")
        [.kw "add_zero_value_sublattice" (.name "sublattice_A")])],
    [.exprS (.call (.attr (.name "s_o_atom_difference") "plot") [])],
    [.assign [.name "atom_lattice"]
      (.call (.attr (.attr (.name "am") "dummy_data") "get_polarization_film_atom_lattice") []),
     .exprS (.call (.attr (.name "atom_lattice") "plot") [])],
    [.assign [.name "sublatticeA"]
      (.index (.attr (.name "atom_lattice") "sublattice_list") (.intLit 0)),
     .exprS (.call (.attr (.name "sublatticeA") "construct_zone_axes") [])],
    [.exprS (.call (.attr (.name "sublatticeA") "plot_planes") [])],
    [.assign [.name "za0"]
      (.index (.attr (.name "sublatticeA") "zones_axis_average_distances") (.intLit 0)),
     .assign [.name "za1"]
      (.index (.attr (.name "sublatticeA") "zones_axis_average_distances") (.intLit 1)),
     .assign [.name "sublatticeB"]
      (.index (.attr (.name "atom_lattice") "sublattice_list") (.intLit 1)),
     .assign [.name "s_polarization"]
      (.call (.attr (.name "sublatticeA") "get_polarization_from_second_sublattice")
        [.name "za0", .name "za1", .name "sublatticeB"])],
    [.exprS (.call (.attr (.name "s_polarization") "plot") []),
     .assign [.name "vector_list"] (.attr (.attr (.name "s_polarization") "metadata") "vector_list")] ]

/-- The code cells of the abTEM atomic-models notebook, in listed order. -/
def abtemCells : List (List PyStmt) :=
  [ [.magic "%matplotlib inline",
     .imp "abtem" none,
     .imp "ase" none,
     .imp "matplotlib.pyplot" (some "plt"),
     .imp "numpy" (some "np"),
     .impFrom "ase.visualize" ["view"]],
    [.assign [.name "atoms"]
      (.call (.attr (.name "ase") "Atoms")
        [.strLit "N2",
         .kw "positions"
          (.listE [.tupleE [.ratLit 0, .ratLit 0, .ratLit 0],
                   .tupleE [.ratLit 1, .ratLit 0, .ratLit 0]]),
         .kw "cell" (.listE [.intLit 6, .intLit 6, .intLit 6])])],
    [.exprS (.attr (.name "atoms") "positions")],
    [.exprS (.attr (.name "atoms") "numbers")],
    [.exprS (.attr (.name "atoms") "cell")],
    [.exprS (.attr (.name "atoms") "cell")],
    [.exprS (.attr (.name "atoms") "numbers")],
    [.assign [.index (.attr (.name "atoms") "numbers") (.intLit 0)] (.intLit 8)],
    [.augAssign (.name "atoms") "+"
      (.call (.attr (.name "ase") "Atoms")
        [.strLit "N", .kw "positions" (.listE [.tupleE [.ratLit 2, .intLit 0, .intLit 0]])]),
     .exprS (.name "atoms")],
    [.exprS (.call (.attr (.name "abtem") "show_atoms") [.name "atoms", .kw "plane" (.strLit "xy")])],
    [.impFrom "ase.visualize" ["view"],
     .exprS (.call (.name "view") [.name "atoms"])],
    [.assign [.name "atom_pos"]
      (.listE [.tupleE [.ratLit 0, .ratLit 0, .ratLit 0],
               .tupleE [.ratLit (1/2), .ratLit (1/2), .ratLit (1/2)],
               .tupleE [.ratLit (1/2), .ratLit (1/2), .ratLit 0]]),
     .assign [.name "srtio3"]
      (.call (.attr (.attr (.name "ase") "spacegroup") "crystal")
        [.listE [.strLit "Sr", .strLit "Ti", .strLit "O"], .name "atom_pos",
         .kw "spacegroup" (.intLit 221), .kw "cellpar" (.ratLit (781/200)),
         .kw "size" (.tupleE [.intLit 1, .intLit 1, .intLit 1])]),
     .exprS (.call (.attr (.name "abtem") "show_atoms")
        [.binop "*" (.name "srtio3") (.tupleE [.intLit 3, .intLit 3, .intLit 3]),
         .kw "legend" (.boolLit true)])],
    [.impFrom "ase.build" ["surface"],
     .assign [.name "srtio3_110"]
      (.call (.name "surface")
        [.name "srtio3", .kw "indices" (.tupleE [.intLit 1, .intLit 1, .intLit 0]),
         .kw "layers" (.intLit 2), .kw "periodic" (.boolLit true)]),
     .exprS (.call (.attr (.name "abtem") "show_atoms")
        [.name "srtio3_110", .kw "plane" (.strLit "xy"), .kw "legend" (.boolLit true)])],
    [.exprS (.call (.attr (.name "srtio3_110") "wrap") []),
     .exprS (.call (.attr (.name "abtem") "show_atoms")
        [.name "srtio3_110", .kw "plane" (.strLit "xy"), .kw "legend" (.boolLit true),
         .kw "show_periodic" (.boolLit true)])],
    [.assign [.name "repeated_srtio3"] (.call (.attr (.name "srtio3_110") "copy") []),
     .augAssign (.name "repeated_srtio3") "*" (.tupleE [.intLit 3, .intLit 4, .intLit 10]),
     .exprS (.call (.attr (.name "abtem") "show_atoms")
        [.name "repeated_srtio3", .kw "legend" (.boolLit true)])],
    [.exprS (.call (.attr (.name "abtem") "show_atoms")
        [.name "repeated_srtio3", .kw "legend" (.boolLit true), .kw "plane" (.strLit "xz")])],
    [.assign [.name "sto_lto"] (.call (.attr (.name "repeated_srtio3") "copy") []),
     .assign [.name "mask"] (.binop "==" (.attr (.name "sto_lto") "symbols") (.strLit "Sr")),
     .assign [.name "mask"]
      (.binop "*" (.name "mask")
        (.binop "<"
          (.index (.attr (.name "sto_lto") "positions") (.tupleE [.sliceAll, .intLit 1]))
          (.ratLit (15/2)))),
     .assign [.index (.attr (.name "sto_lto") "numbers") (.name "mask")] (.intLit 57)],
    [.exprS (.call (.attr (.name "sto_lto") "center")
        [.kw "axis" (.intLit 2), .kw "vacuum" (.intLit 5)]),
     .assign [.name "fig", .tupleE [.name "ax1", .name "ax2"]]
      (.call (.attr (.name "plt") "subplots")
        [.intLit 1, .intLit 2, .kw "figsize" (.tupleE [.intLit 8, .intLit 4])]),
     .exprS (.call (.attr (.name "abtem") "show_atoms") [.name "sto_lto", .kw "ax" (.name "ax1")]),
     .exprS (.call (.attr (.name "abtem") "show_atoms")
        [.name "sto_lto", .kw "ax" (.name "ax2"), .kw "plane" (.strLit "yz"),
         .kw "legend" (.boolLit true)])],
    [.impFrom "ase.io" ["write"],
     .exprS (.call (.name "write") [.strLit "sto_lto.cif", .name "sto_lto"])],
    [.assign [.name "sto_lto"]
      (.call (.attr (.attr (.name "ase") "io") "read") [.strLit "sto_lto.cif"])],
    [.assign [.name "graphene"]
      (.call (.attr (.attr (.name "ase") "build") "graphene") [.kw "vacuum" (.intLit 4)]),
     .exprS (.call (.attr (.name "abtem") "show_atoms")
        [.binop "*" (.name "graphene") (.tupleE [.intLit 4, .intLit 4, .intLit 1])])],
    [.assign [.name "orthogonal_graphene", .name "transform"]
      (.call (.attr (.name "abtem") "orthogonalize_cell")
        [.name "graphene", .kw "return_transform" (.boolLit true)]),
     .exprS (.call (.attr (.name "abtem") "show_atoms")
        [.binop "*" (.name "orthogonal_graphene") (.tupleE [.intLit 5, .intLit 3, .intLit 1])])],
    [.impFrom "abtem.atoms" ["pretty_print_transform"],
     .exprS (.call (.name "pretty_print_transform") [.name "transform"])],
    [.exprS (.call (.attr (.name "abtem") "show_atoms") [.name "srtio3", .kw "plane" (.strLit "xz")])],
    [.assign [.name "repeated_srtio3"]
      (.binop "*" (.name "srtio3") (.tupleE [.intLit 1, .intLit 1, .intLit 8])),
     .assign [.name "fig", .tupleE [.name "ax1", .name "ax2"]]
      (.call (.attr (.name "plt") "subplots")
        [.intLit 1, .intLit 2, .kw "figsize" (.tupleE [.intLit 6, .intLit 4])]),
     .exprS (.call (.attr (.name "abtem") "show_atoms")
        [.name "repeated_srtio3", .kw "ax" (.name "ax1"), .kw "title" (.strLit "Beam view")]),
     .exprS (.call (.attr (.name "abtem") "show_atoms")
        [.name "repeated_srtio3", .kw "ax" (.name "ax2"), .kw "plane" (.strLit "xz"),
         .kw "title" (.strLit "Side view")]),
     .exprS (.call (.attr (.name "fig") "tight_layout") [])],
    [.assign [.name "rotated_srtio3_1"] (.call (.attr (.name "repeated_srtio3") "copy") []),
     .exprS (.call (.attr (.name "rotated_srtio3_1") "rotate")
        [.binop "/" (.ratLit (44/5)) (.intLit 2), .strLit "z", .kw "rotate_cell" (.boolLit true)]),
     .assign [.name "rotated_srtio3_2"] (.call (.attr (.name "repeated_srtio3") "copy") []),
     .exprS (.call (.attr (.name "rotated_srtio3_2") "rotate")
        [.binop "/" (.unop "-" (.ratLit (44/5))) (.intLit 2), .strLit "z",
         .kw "rotate_cell" (.boolLit true)]),
     .assign [.name "fig", .tupleE [.name "ax1", .name "ax2"]]
      (.call (.attr (.name "plt") "subplots")
        [.intLit 1, .intLit 2, .kw "figsize" (.tupleE [.intLit 10, .intLit 4])]),
     .exprS (.call (.attr (.name "abtem") "show_atoms")
        [.name "rotated_srtio3_1", .kw "title" (.strLit "Positive rotation"),
         .kw "ax" (.name "ax1")]),
     .exprS (.call (.attr (.name "abtem") "show_atoms")
        [.name "rotated_srtio3_2", .kw "title" (.strLit "Negative rotation"),
         .kw "ax" (.name "ax2")])],
    [.impFrom "abtem.atoms" ["pretty_print_transform"],
     .assign [.name "maxreps"] (.intLit 12),
     .assign [.name "atoms_top", .name "transform1"]
      (.call (.attr (.name "abtem") "orthogonalize_cell")
        [.name "rotated_srtio3_1", .kw "max_repetitions" (.name "maxreps"),
         .kw "return_transform" (.boolLit true)]),
     .assign [.name "atoms", .name "transform2"]
      (.call (.attr (.name "abtem") "orthogonalize_cell")
        [.name "rotated_srtio3_2", .kw "max_repetitions" (.name "maxreps"),
         .kw "return_transform" (.boolLit true)]),
     .assign [.name "atoms_bottom"] (.call (.attr (.name "atoms") "copy") []),
     .exprS (.call (.attr (.name "atoms_bottom") "translate")
        [.listE [.intLit 0, .intLit 0,
          .unop "-" (.index (.attr (.name "atoms_top") "cell") (.tupleE [.intLit 2, .intLit 2]))]]),
     .exprS (.call (.name "pretty_print_transform") [.name "transform1"]),
     .exprS (.call (.name "pretty_print_transform") [.name "transform2"]),
     .exprS (.call (.attr (.name "abtem") "show_atoms")
        [.name "atoms", .kw "title" (.strLit "Beam view"), .kw "plane" (.strLit "xz")])],
    [.assign [.name "combined"] (.binop "+" (.name "atoms_top") (.name "atoms_bottom")),
     .augAssign (.index (.attr (.name "combined") "cell") (.tupleE [.intLit 2, .intLit 2]))
       "*" (.intLit 2),
     .exprS (.call (.attr (.name "combined") "center")
        [.kw "axis" (.intLit 2), .kw "vacuum" (.intLit 4)]),
     .assign [.name "fig", .tupleE [.name "ax1", .name "ax2"]]
      (.call (.attr (.name "plt") "subplots")
        [.intLit 1, .intLit 2, .kw "figsize" (.tupleE [.intLit 12, .intLit 6])]),
     .exprS (.call (.attr (.name "abtem") "show_atoms")
        [.name "combined", .kw "ax" (.name "ax1"), .kw "title" (.strLit "Beam view"),
         .kw "scale" (.ratLit (2/5))]),
     .exprS (.call (.attr (.name "abtem") "show_atoms")
        [.name "combined", .kw "ax" (.name "ax2"), .kw "plane" (.strLit "xz"),
         .kw "title" (.strLit "Side view"), .kw "scale" (.ratLit (2/5))]),
     .exprS (.call (.attr (.name "fig") "tight_layout") [])] ]

/-- All statements of the Atomap notebook in listed order. -/
def atomapStmts : List PyStmt := atomapCells.flatten

/-- All statements of the abTEM notebook in listed order. -/
def abtemStmts : List PyStmt := abtemCells.flatten

/-- All statements of both notebooks. -/
def allNotebookStmts : List PyStmt := atomapStmts ++ abtemStmts

end Notebooks

namespace Hyperspy

/-- A HyperSpy signal, reduced to the part the notebooks touch: its data
array, modelled as a matrix of exact rationals. -/
structure Signal where
  data : List (List ℚ)

/-- A rectangular region of interest, given by its top-left corner and its
extent in pixels. -/
structure RectangularROI where
  left : ℕ
  top : ℕ
  width : ℕ
  height : ℕ

/-- Modelled from the spec: roi.interactive(s) slices the signal to the
rectangular region of interest (HyperSpy region-of-interest functionality,
external to the repository); the data of the result is the rectangular crop
of the data of s. -/
def RectangularROI.interactive (roi : RectangularROI) (s : Signal) : Signal :=
  ⟨((s.data.drop roi.top).take roi.height).map
    (fun r => (r.drop roi.left).take roi.width)⟩

/-- Modelled from the spec: plotting displays a signal and leaves its data
unchanged; the value a plotting call leaves behind for the plotted signal. -/
def Signal.plotted (s : Signal) : Signal := s

/-- The get_live_fft function of the Atomap notebook, transcribed statement
by statement.  The zero-frequency-shifted FFT, computed by the external
hs.interactive(s_roi.fft, shift=True), is a parameter fftShifted, and the
interactively placed ROI is a parameter roi.  The function returns the pair
(returned signal, final value of the argument s). -/
def get_live_fft (fftShifted : Signal → Signal) (roi : RectangularROI)
    (s : Signal) : Signal × Signal :=
  let s0 := s.plotted
  let s_roi := roi.interactive s0
  let s_fft := fftShifted s_roi
  let s_fft1 := s_fft.plotted
  (s_fft1, s0)

/-- Elementwise reciprocal of one image row; division by zero is the error
branch and yields none. -/
def invertRow : List ℚ → Option (List ℚ)
  | [] => some []
  | x :: xs =>
      if x = 0 then none
      else
        match invertRow xs with
        | none => none
        | some ys => some (1 / x :: ys)

/-- The ABF contrast inversion cell, data_abf_invert = 1 / s_abf.data:
the elementwise reciprocal of the image, with division by zero as the error
branch. -/
def data_abf_invert : List (List ℚ) → Option (List (List ℚ))
  | [] => some []
  | r :: rs =>
      match invertRow r, data_abf_invert rs with
      | some r1, some rs1 => some (r1 :: rs1)
      | _, _ => none

end Hyperspy

namespace Ase

/-- An ASE Atoms object, reduced to the parts the notebooks touch: atomic
numbers, positions and the periodic cell. -/
structure Atoms where
  numbers : List ℕ
  positions : List (ℚ × ℚ × ℚ)
  cell : List (List ℚ)

/-- Chemical symbols of the atomic numbers occurring in the notebooks
(carbon, nitrogen, oxygen, titanium, strontium, lanthanum). -/
def chemicalSymbol (z : ℕ) : String :=
  if z = 6 then "C"
  else if z = 7 then "N"
  else if z = 8 then "O"
  else if z = 22 then "Ti"
  else if z = 38 then "Sr"
  else if z = 57 then "La"
  else ""

/-- Atoms.copy produces an independent value; mutating the copy leaves the
original untouched. -/
def Atoms.copy (a : Atoms) : Atoms := a

/-- The boolean mask of the interface cell at atom index i:
mask = (sto_lto.symbols == "Sr") * (sto_lto.positions[:, 1] < 7.5). -/
def srMaskAt (a : Atoms) (i : ℕ) : Bool :=
  match a.numbers[i]?, a.positions[i]? with
  | some z, some p => decide (chemicalSymbol z = "Sr") && decide (p.2.1 < 15 / 2)
  | _, _ => false

/-- The numbers array after sto_lto.numbers[mask] = 57: masked entries become
57, all others keep their value. -/
def sto_lto_numbers (a : Atoms) : List ℕ :=
  (List.range a.numbers.length).map
    (fun i => if srMaskAt a i then 57 else a.numbers.getD i 0)

/-- The SrTiO3/LaTiO3 interface construction applied to a copy of the
repeated structure, as in the sto_lto cell of the abTEM notebook. -/
def sto_lto_from (a : Atoms) : Atoms :=
  { a.copy with numbers := sto_lto_numbers a.copy }

/-- Final values of the two Python bindings after the interface cell: the
original repeated_srtio3 and the freshly built sto_lto. -/
def interface_cell (repeated_srtio3 : Atoms) : Atoms × Atoms :=
  (repeated_srtio3, sto_lto_from repeated_srtio3)

/-- A small concrete Atoms value: a strontium atom below the 7.5 Angstrom
line, a titanium atom, and a strontium atom above the line. -/
def exampleAtoms : Atoms :=
  { numbers := [38, 22, 38],
    positions := [(0, 0, 0), (1, 2, 3), (0, 9, 0)],
    cell := [[4, 0, 0], [0, 4, 0], [0, 0, 4]] }

end Ase

namespace Atomap

/-- An Atomap sublattice, reduced to the constructor arguments the notebook
passes to am.Sublattice. -/
structure Sublattice where
  atom_position_list : List (ℚ × ℚ)
  image : List (List ℚ)
  color : String
  name : String

/-- An Atomap atom lattice, as built by am.Atom_Lattice in the notebook. -/
structure Atom_Lattice where
  image : List (List ℚ)
  name : String
  sublattice_list : List Sublattice

/-- The on-disk container, a map from filename to the persisted bundle. -/
def HDF5Store : Type := List (String × Atom_Lattice)

/-- Modelled from the spec: atom_lattice.save(overwrite=True) persists the
structure-and-sublattice bundle to the binary container named
name_atom_lattice.hdf5, overwriting any previous entry (the Atomap save
routine is external to the repository). -/
def Atom_Lattice.save (al : Atom_Lattice) (store : HDF5Store) : HDF5Store :=
  (al.name ++ "_atom_lattice.hdf5", al) :: store

/-- Modelled from the spec: the saved bundle is re-loadable by filename
(the Atomap load routine is external to the repository). -/
def load_atom_lattice_from_hdf5 (fname : String) (store : HDF5Store) :
    Option Atom_Lattice :=
  (store.find? (fun p => p.1 = fname)).map (fun p => p.2)

/-- The Atom_Lattice the notebook builds: am.Atom_Lattice(image=s_abf.data,
name='ABO3', sublattice_list=[sublattice_A2, sublattice_B2, sublattice_O]). -/
def notebook_atom_lattice (img : List (List ℚ))
    (sublattice_A2 sublattice_B2 sublattice_O : Sublattice) : Atom_Lattice :=
  { image := img, name := "ABO3",
    sublattice_list := [sublattice_A2, sublattice_B2, sublattice_O] }

end Atomap

namespace AseIo

/-- The extension of a filename: the characters after the last dot, or none
when the filename has no dot. -/
def extensionOf (fname : String) : Option String :=
  let revName := fname.data.reverse
  let revExt := revName.takeWhile (fun c => c != '.')
  if revExt.length < revName.length then some ⟨revExt.reverse⟩ else none

/-- Modelled from the spec: the ASE IO layer infers the file format from the
filename ending. -/
def inferredFormat (fname : String) : Option String :=
  match extensionOf fname with
  | some ext =>
      if ext = "cif" ∨ ext = "xyz" ∨ ext = "traj" ∨ ext = "vasp" then some ext
      else none
  | none => none

/-- The on-disk text files, a map from filename to the exported structure. -/
def FileStore : Type := List (String × Ase.Atoms)

/-- Modelled from the spec: write(fname, atoms) exports the structure as a
crystal-structure text file in the format inferred from the filename ending
(the ASE writer is external to the repository). -/
def write (fname : String) (a : Ase.Atoms) (st : FileStore) : Option FileStore :=
  match inferredFormat fname with
  | some _ => some ((fname, a) :: st)
  | none => none

/-- Modelled from the spec: ase.io.read(fname) reads the exported structure
back by filename (the ASE reader is external to the repository). -/
def read (fname : String) (st : FileStore) : Option Ase.Atoms :=
  (st.find? (fun p => p.1 = fname)).map (fun p => p.2)

end AseIo

namespace Components

/-- The three components the spec names: an atomic-column analysis toolkit,
an atomic-structure/image-simulation toolkit, and a plotting dependency. -/
inductive LibComponent where
  | columnAnalysis
  | structureSimulation
  | plotting
deriving DecidableEq

/-- Modelled from the spec: which of the three components a Python module
imported by the notebooks belongs to.  HyperSpy and Atomap form the
atomic-column analysis toolkit, ASE and abTEM the atomic-structure and
image-simulation toolkit, matplotlib the plotting dependency. -/
def componentOf (m : String) : Option LibComponent :=
  if m = "hyperspy.api" ∨ m = "atomap.api" ∨ m = "atomap.tools" then
    some LibComponent.columnAnalysis
  else if m = "ase" ∨ m = "ase.visualize" ∨ m = "ase.build" ∨ m = "ase.io" ∨
      m = "ase.spacegroup" ∨ m = "abtem" ∨ m = "abtem.atoms" then
    some LibComponent.structureSimulation
  else if m = "matplotlib.pyplot" then some LibComponent.plotting
  else none

/-- Python modules that would introduce concurrency if imported. -/
def concurrencyModules : List String :=
  ["threading", "multiprocessing", "asyncio", "concurrent.futures",
   "dask.distributed"]

end Components

namespace Runtime

open Notebooks

/-- Interpreter state for the file-effect semantics: the files present on
disk and, for each variable bound to an Atom_Lattice, the lattice name it
was constructed with (which determines the filename its save call writes). -/
structure KernelFS where
  files : List String
  latticeNames : List (String × String)

mutual

/-- Filenames an expression requires on disk: the string-literal arguments
of hs.load, ase.io.read and am.load_atom_lattice_from_hdf5 calls. -/
def exprReads : PyExpr → List String
  | .call f args =>
      (match f, args with
       | .attr (.name "hs") "load", [.strLit fn] => [fn]
       | .attr (.attr (.name "ase") "io") "read", [.strLit fn] => [fn]
       | .attr (.name "am") "load_atom_lattice_from_hdf5", [.strLit fn] => [fn]
       | _, _ => []) ++ exprReads f ++ exprsReads args
  | .attr e _ => exprReads e
  | .kw _ v => exprReads v
  | .index e i => exprReads e ++ exprReads i
  | .binop _ a b => exprReads a ++ exprReads b
  | .unop _ a => exprReads a
  | .tupleE es => exprsReads es
  | .listE es => exprsReads es
  | _ => []

def exprsReads : List PyExpr → List String
  | [] => []
  | e :: r => exprReads e ++ exprsReads r

end

/-- The lattice name passed as the name keyword of an am.Atom_Lattice call. -/
def latticeNameOf : List PyExpr → Option String
  | [] => none
  | .kw "name" (.strLit n) :: _ => some n
  | _ :: rest => latticeNameOf rest

/-- The first file a statement requires that is missing from disk. -/
def firstMissing (fs : List String) (reads : List String) : Option String :=
  reads.find? (fun f => !(decide (f ∈ fs)))

mutual

/-- File-effect semantics of one statement.  A read of a missing file is an
unhandled error carrying the filename; a try/except statement would catch
errors of its body, but the notebooks contain none.  write(fname, _) adds
fname to the disk, and atom_lattice.save adds name_atom_lattice.hdf5 for the
recorded lattice name.  The loop and conditional constructs (unused by the
notebooks) execute their bodies once in order. -/
def runStmt (st : KernelFS) : PyStmt → Except String KernelFS
  | .tryEx body handler =>
      match runStmts st body with
      | .error _ => runStmts st handler
      | .ok st1 => .ok st1
  | .defFun _ _ _ => .ok st
  | .assign ts rhs =>
      match firstMissing st.files (exprsReads ts ++ exprReads rhs) with
      | some f => .error f
      | none =>
          match ts, rhs with
          | [.name x], .call (.attr (.name "am") "Atom_Lattice") args =>
              match latticeNameOf args with
              | some n => .ok { st with latticeNames := (x, n) :: st.latticeNames }
              | none => .ok st
          | _, _ => .ok st
  | .augAssign t _ rhs =>
      match firstMissing st.files (exprReads t ++ exprReads rhs) with
      | some f => .error f
      | none => .ok st
  | .exprS e =>
      match firstMissing st.files (exprReads e) with
      | some f => .error f
      | none =>
          match e with
          | .call (.name "write") (.strLit fn :: _) =>
              .ok { st with files := fn :: st.files }
          | .call (.attr (.name x) "save") _ =>
              match st.latticeNames.find? (fun p => p.1 = x) with
              | some p => .ok { st with files := (p.2 ++ "_atom_lattice.hdf5") :: st.files }
              | none => .ok st
          | _ => .ok st
  | .ret e =>
      match firstMissing st.files (exprReads e) with
      | some f => .error f
      | none => .ok st
  | .raiseS _ => .error "raise"
  | .whileS c body =>
      match firstMissing st.files (exprReads c) with
      | some f => .error f
      | none => runStmts st body
  | .forS _ iter body =>
      match firstMissing st.files (exprReads iter) with
      | some f => .error f
      | none => runStmts st body
  | .ifS c thn els =>
      match firstMissing st.files (exprReads c) with
      | some f => .error f
      | none =>
          match runStmts st thn with
          | .error f => .error f
          | .ok st1 => runStmts st1 els
  | .asyncSpawn e =>
      match firstMissing st.files (exprReads e) with
      | some f => .error f
      | none => .ok st
  | _ => .ok st

def runStmts (st : KernelFS) : List PyStmt → Except String KernelFS
  | [] => .ok st
  | s :: rest =>
      match runStmt st s with
      | .error f => .error f
      | .ok st1 => runStmts st1 rest

end

/-- Run a notebook's cells in listed order against an initial disk. -/
def runNotebook (cells : List (List PyStmt)) (files : List String) :
    Except String Unit :=
  match runStmts ⟨files, []⟩ cells.flatten with
  | .ok _ => .ok ()
  | .error f => .error f

end Runtime

namespace Kernel

open Notebooks

/-- State of the interactive kernel: the statements already executed (most
recent first), the rest of the cell being executed, and the cells not yet
started.  At every moment at most one statement is being executed. -/
structure KernelState where
  doneRev : List PyStmt
  current : List PyStmt
  pending : List (List PyStmt)

/-- The execution trace from a kernel state: statements are executed
strictly one after another, one at a time, cells in listed order. -/
def stepsFrom : KernelState → List PyStmt
  | ⟨_, [], []⟩ => []
  | ⟨d, [], c :: cs⟩ => stepsFrom ⟨d, c, cs⟩
  | ⟨d, s :: rest, cs⟩ => s :: stepsFrom ⟨s :: d, rest, cs⟩
termination_by st => (st.pending.length, st.current.length)

/-- The full execution trace of a notebook's cells. -/
def machineTrace (cells : List (List PyStmt)) : List PyStmt :=
  stepsFrom ⟨[], [], cells⟩

theorem stepsFrom_eq :
    ∀ (pend : List (List PyStmt)) (cur d : List PyStmt),
      stepsFrom ⟨d, cur, pend⟩ = cur ++ pend.flatten := by
  intro pend
  induction pend with
  | nil =>
    intro cur
    induction cur with
    | nil => intro d; simp [stepsFrom]
    | cons s rest ih => intro d; simp [stepsFrom, ih]
  | cons c cs ihp =>
    intro cur
    induction cur with
    | nil => intro d; rw [stepsFrom, ihp]; simp
    | cons s rest ih => intro d; rw [stepsFrom, ih]; simp

/-- A notebook's execution trace is exactly its statements in listed order. -/
theorem machineTrace_eq (cells : List (List PyStmt)) :
    machineTrace cells = cells.flatten := by
  rw [machineTrace, stepsFrom_eq]; simp

end Kernel

namespace Ase

theorem chemicalSymbol_eq_sr (z : ℕ) : chemicalSymbol z = "Sr" ↔ z = 38 := by
  unfold chemicalSymbol
  split_ifs with h1 h2 h3 h4 h5 h6 <;> simp_all

end Ase

namespace Hyperspy

theorem invertRow_isSome_iff (r : List ℚ) :
    (invertRow r).isSome = true ↔ ∀ x ∈ r, x ≠ 0 := by
  induction r with
  | nil => simp [invertRow]
  | cons x xs ih =>
    by_cases hx : x = 0
    · simp [invertRow, hx]
    · simp only [invertRow, hx, if_false]
      cases h : invertRow xs with
      | none =>
        simp only [h] at ih
        simp only [Option.isSome_none, Bool.false_eq_true, false_iff] at ih ⊢
        intro hall
        exact ih (fun y hy => hall y (List.mem_cons_of_mem x hy))
      | some ys =>
        simp only [h] at ih
        simp only [Option.isSome_some, true_iff] at ih
        simp only [Option.isSome_some, true_iff, List.forall_mem_cons]
        exact ⟨hx, ih⟩

theorem invertRow_getElem (r r1 : List ℚ) (h : invertRow r = some r1) :
    ∀ (j : ℕ) (x : ℚ), r[j]? = some x → r1[j]? = some (1 / x) := by
  induction r generalizing r1 with
  | nil => intro j x hx; simp at hx
  | cons a as ih =>
    by_cases ha : a = 0
    · simp [invertRow, ha] at h
    · simp only [invertRow, ha, if_false] at h
      cases hrec : invertRow as with
      | none => rw [hrec] at h; simp at h
      | some ys =>
        rw [hrec] at h
        simp only [Option.some.injEq] at h
        subst h
        intro j x hx
        cases j with
        | zero =>
          simp only [List.getElem?_cons_zero, Option.some.injEq] at hx
          subst hx
          simp
        | succ n =>
          simp only [List.getElem?_cons_succ] at hx ⊢
          exact ih ys hrec n x hx

theorem data_abf_invert_isSome_iff (d : List (List ℚ)) :
    (data_abf_invert d).isSome = true ↔ ∀ r ∈ d, ∀ x ∈ r, x ≠ 0 := by
  induction d with
  | nil => simp [data_abf_invert]
  | cons r rs ih =>
    cases h1 : invertRow r with
    | none =>
      have hr : ¬ ∀ x ∈ r, x ≠ 0 := by
        rw [← invertRow_isSome_iff, h1]
        simp
      simp only [data_abf_invert, h1]
      simp only [Option.isSome_none, Bool.false_eq_true, false_iff]
      intro hall
      exact hr (hall r (List.mem_cons_self r rs))
    | some r1 =>
      have hr : ∀ x ∈ r, x ≠ 0 := by
        rw [← invertRow_isSome_iff, h1]
        simp
      cases h2 : data_abf_invert rs with
      | none =>
        simp only [h2] at ih
        simp only [Option.isSome_none, Bool.false_eq_true, false_iff] at ih
        simp only [data_abf_invert, h1, h2, Option.isSome_none,
          Bool.false_eq_true, false_iff]
        intro hall
        exact ih (fun r2 hr2 => hall r2 (List.mem_cons_of_mem r hr2))
      | some rs1 =>
        simp only [h2] at ih
        simp only [Option.isSome_some, true_iff] at ih
        simp only [data_abf_invert, h1, h2, Option.isSome_some, true_iff,
          List.forall_mem_cons]
        exact ⟨hr, ih⟩

theorem data_abf_invert_getElem (d res : List (List ℚ))
    (h : data_abf_invert d = some res) :
    ∀ (i j : ℕ) (x : ℚ), d[i]?.bind (fun r => r[j]?) = some x →
      res[i]?.bind (fun r => r[j]?) = some (1 / x) := by
  induction d generalizing res with
  | nil => intro i j x hx; simp at hx
  | cons r rs ih =>
    simp only [data_abf_invert] at h
    cases h1 : invertRow r with
    | none => rw [h1] at h; simp at h
    | some r1 =>
      rw [h1] at h
      cases h2 : data_abf_invert rs with
      | none => rw [h2] at h; simp at h
      | some rs1 =>
        rw [h2] at h
        simp only [Option.some.injEq] at h
        subst h
        intro i j x hx
        cases i with
        | zero =>
          simp only [List.getElem?_cons_zero, Option.some_bind] at hx ⊢
          exact invertRow_getElem r r1 h1 j x hx
        | succ n =>
          simp only [List.getElem?_cons_succ] at hx ⊢
          exact ih rs1 h2 n j x hx

end Hyperspy

open Notebooks Notebooks.Analysis

/-- Claim C1 counterexample: the claim that no function is defined within the
repository is false: the Atomap notebook defines the function get_live_fft,
so the list of functions defined in the notebooks is not empty. -/
theorem claim_C1_counterexample : funDefNames allNotebookStmts ≠ [] := by decide

/-- Claim C1 (amended): every cell of the two notebooks consists only of
straight-line calls into external libraries, with the single exception of the
function definition get_live_fft in the Atomap notebook, whose own body only
sequences external-library calls: the set of functions defined in the
notebooks is exactly get_live_fft, every function body consists only of bare
library calls, assignments of library-call results and a return of a bound
name, and every statement of both notebooks is straight-line or that one
function definition. -/
theorem claim_C1_only_helper_is_get_live_fft :
    funDefNames allNotebookStmts = ["get_live_fft"] ∧
    (stmtsFunDefs allNotebookStmts).all
      (fun t => t.2.2.all isLibCallStmt) = true ∧
    allNotebookStmts.all
      (fun s => stmtIsStraightLine s || stmtIsDefFun s) = true := by decide

/-- Claim C2: saving the combined Atom_Lattice with sublattices A, B and O
persists the bundle to the binary container ABO3_atom_lattice.hdf5, and
re-loading that container by filename with load_atom_lattice_from_hdf5
yields an atom lattice whose sublattice_list contains the same three
sublattices in the same order, index 0 the A-sublattice and index 2 the
O-sublattice: save followed by load is a round trip. -/
theorem claim_C2_save_load_roundtrip (store : Atomap.HDF5Store)
    (img : List (List ℚ)) (sA sB sO : Atomap.Sublattice) :
    Atomap.load_atom_lattice_from_hdf5 "ABO3_atom_lattice.hdf5"
        ((Atomap.notebook_atom_lattice img sA sB sO).save store) =
      some (Atomap.notebook_atom_lattice img sA sB sO) ∧
    (Atomap.notebook_atom_lattice img sA sB sO).sublattice_list = [sA, sB, sO] ∧
    (Atomap.notebook_atom_lattice img sA sB sO).sublattice_list[0]? = some sA ∧
    (Atomap.notebook_atom_lattice img sA sB sO).sublattice_list[2]? = some sO :=
  ⟨rfl, rfl, rfl, rfl⟩

/-- Claim C3: exporting a structure with write to the file sto_lto.cif
produces a crystal-structure text file whose format, inferred from the
filename ending, is CIF, and reading that file back with ase.io.read
recovers the exported structure: write followed by read is a round trip. -/
theorem claim_C3_write_read_roundtrip (st : AseIo.FileStore) (sto_lto : Ase.Atoms) :
    AseIo.inferredFormat "sto_lto.cif" = some "cif" ∧
    (AseIo.write "sto_lto.cif" sto_lto st).bind
      (fun st1 => AseIo.read "sto_lto.cif" st1) = some sto_lto :=
  ⟨rfl, rfl⟩

/-- Claim C5: the three hardest operations of the notebooks, 2D Gaussian
peak-position refinement, zone-axis construction, and cell
orthogonalization, each occur as a statement that is exactly one call of the
imported library function, every statement mentioning one of them is such a
single call, and none of the three is among the functions the notebooks
define. -/
theorem claim_C5_hard_ops_are_single_library_calls :
    (allNotebookStmts.any
        (stmtIsSingleCallOfMethod "refine_atom_positions_using_2d_gaussian") = true ∧
      allNotebookStmts.all (fun s =>
        !stmtMentionsAttr "refine_atom_positions_using_2d_gaussian" s ||
          stmtIsSingleCallOfMethod "refine_atom_positions_using_2d_gaussian" s) = true ∧
      "refine_atom_positions_using_2d_gaussian" ∉ funDefNames allNotebookStmts) ∧
    (allNotebookStmts.any (stmtIsSingleCallOfMethod "construct_zone_axes") = true ∧
      allNotebookStmts.all (fun s =>
        !stmtMentionsAttr "construct_zone_axes" s ||
          stmtIsSingleCallOfMethod "construct_zone_axes" s) = true ∧
      "construct_zone_axes" ∉ funDefNames allNotebookStmts) ∧
    (allNotebookStmts.any (stmtCallsLibFn "abtem" "orthogonalize_cell") = true ∧
      allNotebookStmts.all (fun s =>
        !stmtMentionsAttr "orthogonalize_cell" s ||
          stmtIsSingleCallOfMethod "orthogonalize_cell" s) = true ∧
      "orthogonalize_cell" ∉ funDefNames allNotebookStmts) := by decide

/-- Claim C6 counterexample: the claim that every imported library belongs to
one of the three components (atomic-column analysis, atomic-structure and
image simulation, plotting) is false: the abTEM notebook imports numpy,
which belongs to none of the three. -/
theorem claim_C6_counterexample :
    (stmtsImports allNotebookStmts).all
      (fun m => (Components.componentOf m).isSome) = false := by decide

/-- Claim C6 (amended): every module the notebooks import belongs to one of
the three components except numpy, which the abTEM notebook imports as np
but never uses in any statement. -/
theorem claim_C6_three_components_plus_numpy :
    (stmtsImports allNotebookStmts).filter
      (fun m => (Components.componentOf m).isNone) = ["numpy"] ∧
    stmtsUseName "np" allNotebookStmts = false := by decide

/-- Claim C7: the notebooks execute as a single sequential session: neither
notebook contains an async/thread construct or imports a concurrency module,
the kernel machine executes statements strictly one at a time so each
notebook's execution trace is exactly its statements in listed order, and in
particular the two four-step refinement sequences run in their listed
order. -/
theorem claim_C7_sequential_execution :
    stmtsHaveSpawn allNotebookStmts = false ∧
    (stmtsImports allNotebookStmts).all
      (fun m => !(Components.concurrencyModules.contains m)) = true ∧
    Kernel.machineTrace atomapCells = atomapStmts ∧
    Kernel.machineTrace abtemCells = abtemStmts ∧
    (atomapCells.getD 36 []).map stmtLabel =
      ["sublattice_A2.find_nearest_neighbors",
       "sublattice_A2.refine_atom_positions_using_center_of_mass",
       "sublattice_A2.refine_atom_positions_using_2d_gaussian",
       "sublattice_A2.construct_zone_axes"] ∧
    (atomapCells.getD 45 []).map stmtLabel =
      ["sublattice_B2.find_nearest_neighbors",
       "sublattice_B2.refine_atom_positions_using_center_of_mass",
       "sublattice_B2.refine_atom_positions_using_2d_gaussian",
       "sublattice_B2.construct_zone_axes"] :=
  ⟨by decide, by decide, Kernel.machineTrace_eq _, Kernel.machineTrace_eq _,
   by decide, by decide⟩

/-- Claim C8: for every input signal, get_live_fft returns exactly the
zero-frequency-shifted FFT of the rectangular region-of-interest crop of the
signal (the value of hs.interactive applied to the FFT of the ROI slice),
and it leaves the data of its argument unchanged. -/
theorem claim_C8_get_live_fft_is_shifted_fft_of_roi :
    ∀ (fftShifted : Hyperspy.Signal → Hyperspy.Signal)
      (roi : Hyperspy.RectangularROI) (s : Hyperspy.Signal),
      (Hyperspy.get_live_fft fftShifted roi s).1 = fftShifted (roi.interactive s) ∧
      (Hyperspy.get_live_fft fftShifted roi s).2 = s :=
  fun _ _ _ => ⟨rfl, rfl⟩

/-- Claim C9: the ABF contrast inversion computes the elementwise reciprocal
of the image: it is well-defined exactly when every pixel is nonzero (the
division-by-zero error branch is unreachable under that precondition), and
when defined the result at pixel (i, j) is 1 divided by the input pixel. -/
theorem claim_C9_abf_inversion (d : List (List ℚ)) :
    ((Hyperspy.data_abf_invert d).isSome = true ↔ ∀ r ∈ d, ∀ x ∈ r, x ≠ 0) ∧
    ∀ res, Hyperspy.data_abf_invert d = some res →
      ∀ (i j : ℕ) (x : ℚ), d[i]?.bind (fun r => r[j]?) = some x →
        res[i]?.bind (fun r => r[j]?) = some (1 / x) :=
  ⟨Hyperspy.data_abf_invert_isSome_iff d,
   fun res h => Hyperspy.data_abf_invert_getElem d res h⟩

/-- Claim C9 witness: on the concrete all-nonzero image [[1, 2], [4, 8]]
the inversion succeeds and the pixel at row 1, column 0 of the result is
1/4. -/
theorem claim_C9_witness :
    (Hyperspy.data_abf_invert [[(1 : ℚ), 2], [4, 8]]).isSome = true ∧
    [[(1 : ℚ), 1/2], [1/4, 1/8]][1]?.bind (fun r => r[0]?) = some (1 / (4 : ℚ)) := by
  have hres : Hyperspy.data_abf_invert [[(1 : ℚ), 2], [4, 8]] =
      some [[1, 1/2], [1/4, 1/8]] := by
    norm_num [Hyperspy.data_abf_invert, Hyperspy.invertRow]
  constructor
  · exact (claim_C9_abf_inversion [[(1 : ℚ), 2], [4, 8]]).1.mpr (by norm_num)
  · exact (claim_C9_abf_inversion [[(1 : ℚ), 2], [4, 8]]).2
      [[(1 : ℚ), 1/2], [1/4, 1/8]] hres 1 0 4 (by norm_num)

/-- Claim C10: the SrTiO3/LaTiO3 interface construction sets the atomic
number to 57 for exactly those atoms whose chemical symbol is Sr and whose
y-coordinate is strictly below 7.5, leaves every other atomic number, all
positions and the cell unchanged, and, because the masking acts on a copy,
leaves the original repeated structure unmodified. -/
theorem claim_C10_interface_masking (a : Ase.Atoms) :
    (∀ (i z : ℕ) (p : ℚ × ℚ × ℚ),
        a.numbers[i]? = some z → a.positions[i]? = some p →
        (Ase.interface_cell a).2.numbers[i]? =
          some (if z = 38 ∧ p.2.1 < 15 / 2 then 57 else z)) ∧
    (Ase.interface_cell a).2.positions = a.positions ∧
    (Ase.interface_cell a).2.cell = a.cell ∧
    (Ase.interface_cell a).2.numbers.length = a.numbers.length ∧
    (Ase.interface_cell a).1 = a := by
  refine ⟨?_, rfl, rfl, ?_, rfl⟩
  · intro i z p hz hp
    have hi : i < a.numbers.length := (List.getElem?_eq_some_iff.mp hz).1
    have hgetD : a.numbers.getD i 0 = z := by
      simp [List.getD_eq_getElem?_getD, hz]
    have hmask : Ase.srMaskAt a i = true ↔ (z = 38 ∧ p.2.1 < 15 / 2) := by
      simp [Ase.srMaskAt, hz, hp, Ase.chemicalSymbol_eq_sr]
    show (Ase.sto_lto_numbers a)[i]? = _
    rw [Ase.sto_lto_numbers, List.getElem?_map, List.getElem?_range hi,
      Option.map_some', hgetD]
    by_cases hc : z = 38 ∧ p.2.1 < 15 / 2
    · rw [if_pos (hmask.mpr hc), if_pos hc]
    · rw [if_neg (fun hmm => hc (hmask.mp hmm)), if_neg hc]
  · simp [Ase.interface_cell, Ase.sto_lto_from, Ase.sto_lto_numbers,
      Ase.Atoms.copy]

/-- Claim C10 witness: on the concrete example structure, the strontium atom
below the 7.5 line becomes lanthanum (57), the titanium atom and the
strontium atom above the line keep their numbers, and the original structure
is unchanged. -/
theorem claim_C10_witness :
    (Ase.interface_cell Ase.exampleAtoms).2.numbers[0]? = some 57 ∧
    (Ase.interface_cell Ase.exampleAtoms).2.numbers[1]? = some 22 ∧
    (Ase.interface_cell Ase.exampleAtoms).2.numbers[2]? = some 38 ∧
    (Ase.interface_cell Ase.exampleAtoms).1 = Ase.exampleAtoms := by
  have h := claim_C10_interface_masking Ase.exampleAtoms
  refine ⟨?_, ?_, ?_, h.2.2.2.2⟩
  · have h0 := h.1 0 38 (0, 0, 0) rfl rfl
    rw [if_pos ⟨rfl, by norm_num⟩] at h0
    exact h0
  · have h1 := h.1 1 22 (1, 2, 3) rfl rfl
    rw [if_neg (by simp)] at h1
    exact h1
  · have h2 := h.1 2 38 (0, 9, 0) rfl rfl
    rw [if_neg (by norm_num)] at h2
    exact h2

/-- Claim C4: no error handling exists anywhere in either notebook: no
statement is a try/except, loop or raise, and when a named input file is
absent the corresponding load fails with an error that no cell catches, so
the whole run fails: without ADF_image.hspy the Atomap notebook run errors
at that filename, and with it present but ABF_image.hspy absent the run
errors at the latter. -/
theorem claim_C4_no_error_handling :
    stmtsHaveTry allNotebookStmts = false ∧
    stmtsHaveLoop allNotebookStmts = false ∧
    stmtsHaveRaise allNotebookStmts = false ∧
    (∀ files : List String, "ADF_image.hspy" ∉ files →
      Runtime.runNotebook atomapCells files = Except.error "ADF_image.hspy") ∧
    (∀ files : List String, "ADF_image.hspy" ∈ files → "ABF_image.hspy" ∉ files →
      Runtime.runNotebook atomapCells files = Except.error "ABF_image.hspy") := by
  refine ⟨by decide, by decide, by decide, ?_, ?_⟩
  · intro files h
    simp [Runtime.runNotebook, Notebooks.atomapCells, Notebooks.getLiveFftBody,
      Runtime.runStmts, Runtime.runStmt, Runtime.firstMissing,
      Runtime.exprReads, Runtime.exprsReads, List.find?, h]
  · intro files h1 h2
    simp [Runtime.runNotebook, Notebooks.atomapCells, Notebooks.getLiveFftBody,
      Runtime.runStmts, Runtime.runStmt, Runtime.firstMissing,
      Runtime.exprReads, Runtime.exprsReads, List.find?, h1, h2]

/-- Claim C4 witness: concrete runs: from an empty disk the Atomap notebook
fails at ADF_image.hspy, and with only ADF_image.hspy on disk it fails at
ABF_image.hspy. -/
theorem claim_C4_witness :
    Runtime.runNotebook atomapCells [] = Except.error "ADF_image.hspy" ∧
    Runtime.runNotebook atomapCells ["ADF_image.hspy"] =
      Except.error "ABF_image.hspy" :=
  ⟨claim_C4_no_error_handling.2.2.2.1 [] (by decide),
   claim_C4_no_error_handling.2.2.2.2 ["ADF_image.hspy"] (by decide) (by decide)⟩
